import Mathlib

/-!
# Verification of the task-manager backend (FastAPI todo application)

This file gives a shallow embedding, in Lean 4, of the parts of the
repository that the frozen claims are about:

* the owner-scoped task store (`backend/app/services/task_service.py`
  together with the entity methods of `backend/app/models/task.py`),
* the tool executor and the chat orchestration loop
  (`backend/app/services/chat_service.py`), and
* the error envelope of the chat endpoint (`backend/app/routers/chat.py`).

Modelling conventions:

* UUID values are modelled as `Nat` (the 128-bit integer a Python
  `uuid.UUID` wraps); the textual parsing and formatting done by
  `uuid.UUID(str)` and `str(uuid)` are modelled faithfully on hex digits.
* Timestamps (`datetime.utcnow()`) are modelled as an abstract `Nat`
  supplied explicitly at each call site that reads the clock; the
  `isoformat()` rendering is modelled as the decimal rendering of that
  `Nat` (its content is never inspected by any claim).
* The SQL database session is modelled as a `List Task` threaded through
  the operations; a commit of a mutated row replaces the row with the
  same primary key.
* Python exceptions are modelled with `Except String`; the string is the
  `str(e)` of the exception.
* JSON values are a small inductive `Json`; Python dicts of JSON data are
  association lists with distinct keys.
-/

/-! ## Python string primitives used by the code -/

/-- Python whitespace for `str.strip()`: space, tab, newline, return,
vertical tab, form feed. -/
def pyIsSpace (c : Char) : Bool :=
  c == ' ' || c == '\t' || c == '\n' || c == '\x0d' || c == '\x0b' || c == '\x0c'

/-- `str.strip()` on the character list: drop whitespace from both ends. -/
def pyStripList (l : List Char) : List Char :=
  ((l.dropWhile pyIsSpace).reverse.dropWhile pyIsSpace).reverse

/-- Python `s.strip()`. -/
def pyStrip (s : String) : String :=
  String.mk (pyStripList s.data)

/-- Python `s.lower()` (ASCII case folding suffices for this model). -/
def pyLower (s : String) : String :=
  String.mk (s.data.map Char.toLower)

/-- Does the list `n` occur at the head of `h`? (helper for substring). -/
def headMatches : List Char → List Char → Bool
  | [], _ => true
  | _ :: _, [] => false
  | a :: as, b :: bs => a == b && headMatches as bs

/-- Does the list `n` occur contiguously inside `h`? -/
def listSub (n : List Char) : List Char → Bool
  | [] => headMatches n []
  | c :: cs => headMatches n (c :: cs) || listSub n cs

/-- Python `n in h` on strings: contiguous substring containment
(the empty string is contained in every string). -/
def pyIn (n h : String) : Bool :=
  listSub n.data h.data

/-! ## Python `uuid.UUID(str)` parsing and `str(uuid)` formatting -/

/-- Hexadecimal digit test (both cases), as accepted by `int(s, 16)`. -/
def isHexCh (c : Char) : Bool :=
  c.isDigit || ('a' ≤ c && c ≤ 'f') || ('A' ≤ c && c ≤ 'F')

/-- Value of one hexadecimal digit. -/
def hexChVal (c : Char) : Nat :=
  if c.isDigit then c.toNat - 48
  else if 'a' ≤ c && c ≤ 'f' then c.toNat - 97 + 10
  else c.toNat - 65 + 10

/-- Value of a hexadecimal digit string. -/
def hexVal (l : List Char) : Nat :=
  l.foldl (fun acc c => acc * 16 + hexChVal c) 0

/-- Python `s.strip(chars)` with `chars = "\x7b\x7d"`: drop leading and
trailing brace characters. -/
def stripBraces (l : List Char) : List Char :=
  let isBr := fun c => c == '{' || c == '}'
  ((l.dropWhile isBr).reverse.dropWhile isBr).reverse

/-- Replace every non-overlapping occurrence of `pat` by `rep`, left to
right, on character lists. The fuel argument (instantiated with the
length of the list, which always suffices) only makes the recursion
structural. -/
def replFuel (pat rep : List Char) : Nat → List Char → List Char
  | 0, l => l
  | _ + 1, [] => []
  | f + 1, c :: cs =>
      if !pat.isEmpty && headMatches pat (c :: cs) then
        rep ++ replFuel pat rep f ((c :: cs).drop pat.length)
      else
        c :: replFuel pat rep f cs

/-- Python `s.replace(pat, rep)` for a non-empty pattern. -/
def pyReplace (s pat rep : String) : String :=
  String.mk (replFuel pat.data rep.data s.data.length s.data)

/-- The constructor `uuid.UUID(hex=s)` of the Python standard library:
remove the prefixes `urn:` and `uuid:`, strip braces, remove hyphens,
then require exactly 32 hex digits. Returns the 128-bit integer, or
`none` where Python raises
`ValueError("badly formed hexadecimal UUID string")`.
(The whitespace and underscore tolerance of `int(s, 16)` is not
modelled; no claim depends on it.) -/
def pyUUIDparse (s : String) : Option Nat :=
  let h := stripBraces ((pyReplace (pyReplace s "urn:" "") "uuid:" "").data)
  let h := h.filter (fun c => c != '-')
  if h.length == 32 && h.all isHexCh then some (hexVal h) else none

/-- Lowercase hex digit for a value below 16. -/
def hexCh (n : Nat) : Char :=
  if n < 10 then Char.ofNat (48 + n) else Char.ofNat (87 + n)

/-- The 32 lowercase hex digits of a 128-bit value, most significant first. -/
def hex32 (n : Nat) : List Char :=
  ((List.range 32).reverse).map (fun i => hexCh ((n / 16 ^ i) % 16))

/-- Python `str(uuid)`: 8-4-4-4-12 lowercase hyphenated hex groups. -/
def uuidStr (n : Nat) : String :=
  let d := hex32 n
  String.mk ((d.take 8) ++ ['-'] ++ ((d.drop 8).take 4) ++ ['-'] ++
    ((d.drop 12).take 4) ++ ['-'] ++ ((d.drop 16).take 4) ++ ['-'] ++ (d.drop 20))

/-- Model of `datetime.isoformat()` on the abstract clock value. -/
def isoFmt (n : Nat) : String := toString n

/-! ## JSON values

Everything from here on lives in the `TodoApp` namespace, since the name
`Task` is taken by the Lean core library. -/

namespace TodoApp

/-- JSON values, as produced by the tool executor and consumed from
model-supplied tool arguments. Numbers are restricted to `Nat`: the
only numbers the executor emits are list counts. -/
inductive Json where
  | null : Json
  | bool (b : Bool) : Json
  | num (n : Nat) : Json
  | str (s : String) : Json
  | arr (elems : List Json) : Json
  | obj (fields : List (String × Json)) : Json
deriving Repr

mutual

/-- Decidable equality on `Json` (the deriving handler does not support
this nested inductive). -/
def Json.decEq : (a b : Json) → Decidable (a = b)
  | .null, .null => .isTrue rfl
  | .null, .bool _ => .isFalse nofun
  | .null, .num _ => .isFalse nofun
  | .null, .str _ => .isFalse nofun
  | .null, .arr _ => .isFalse nofun
  | .null, .obj _ => .isFalse nofun
  | .bool _, .null => .isFalse nofun
  | .bool a, .bool b =>
      match Bool.decEq a b with
      | .isTrue h => .isTrue (by rw [h])
      | .isFalse h => .isFalse (fun e => h (by cases e; rfl))
  | .bool _, .num _ => .isFalse nofun
  | .bool _, .str _ => .isFalse nofun
  | .bool _, .arr _ => .isFalse nofun
  | .bool _, .obj _ => .isFalse nofun
  | .num _, .null => .isFalse nofun
  | .num _, .bool _ => .isFalse nofun
  | .num a, .num b =>
      match Nat.decEq a b with
      | .isTrue h => .isTrue (by rw [h])
      | .isFalse h => .isFalse (fun e => h (by cases e; rfl))
  | .num _, .str _ => .isFalse nofun
  | .num _, .arr _ => .isFalse nofun
  | .num _, .obj _ => .isFalse nofun
  | .str _, .null => .isFalse nofun
  | .str _, .bool _ => .isFalse nofun
  | .str _, .num _ => .isFalse nofun
  | .str a, .str b =>
      match String.decEq a b with
      | .isTrue h => .isTrue (by rw [h])
      | .isFalse h => .isFalse (fun e => h (by cases e; rfl))
  | .str _, .arr _ => .isFalse nofun
  | .str _, .obj _ => .isFalse nofun
  | .arr _, .null => .isFalse nofun
  | .arr _, .bool _ => .isFalse nofun
  | .arr _, .num _ => .isFalse nofun
  | .arr _, .str _ => .isFalse nofun
  | .arr a, .arr b =>
      match Json.decEqArr a b with
      | .isTrue h => .isTrue (by rw [h])
      | .isFalse h => .isFalse (fun e => h (by cases e; rfl))
  | .arr _, .obj _ => .isFalse nofun
  | .obj _, .null => .isFalse nofun
  | .obj _, .bool _ => .isFalse nofun
  | .obj _, .num _ => .isFalse nofun
  | .obj _, .str _ => .isFalse nofun
  | .obj _, .arr _ => .isFalse nofun
  | .obj a, .obj b =>
      match Json.decEqObj a b with
      | .isTrue h => .isTrue (by rw [h])
      | .isFalse h => .isFalse (fun e => h (by cases e; rfl))

/-- Decidable equality on JSON arrays. -/
def Json.decEqArr : (a b : List Json) → Decidable (a = b)
  | [], [] => .isTrue rfl
  | [], _ :: _ => .isFalse nofun
  | _ :: _, [] => .isFalse nofun
  | x :: xs, y :: ys =>
      match Json.decEq x y with
      | .isFalse h => .isFalse (fun e => h (by cases e; rfl))
      | .isTrue h1 =>
          match Json.decEqArr xs ys with
          | .isTrue h2 => .isTrue (by rw [h1, h2])
          | .isFalse h => .isFalse (fun e => h (by cases e; rfl))

/-- Decidable equality on JSON objects (association lists). -/
def Json.decEqObj : (a b : List (String × Json)) → Decidable (a = b)
  | [], [] => .isTrue rfl
  | [], _ :: _ => .isFalse nofun
  | _ :: _, [] => .isFalse nofun
  | (k1, v1) :: xs, (k2, v2) :: ys =>
      match String.decEq k1 k2 with
      | .isFalse h => .isFalse (fun e => h (by cases e; rfl))
      | .isTrue h0 =>
          match Json.decEq v1 v2 with
          | .isFalse h => .isFalse (fun e => h (by cases e; rfl))
          | .isTrue h1 =>
              match Json.decEqObj xs ys with
              | .isTrue h2 => .isTrue (by rw [h0, h1, h2])
              | .isFalse h => .isFalse (fun e => h (by cases e; rfl))

end

instance : DecidableEq Json := Json.decEq

/-- A Python dict holding JSON data (string keys). -/
abbrev ArgMap := List (String × Json)

/-- Python `d.get(k)` / `d[k]` lookup on an association list. -/
def dictGet (m : ArgMap) (k : String) : Option Json :=
  (m.find? (fun p => p.1 == k)).map Prod.snd

/-! ## The Task entity (backend/app/models/task.py) -/

/-- The `Task` SQLModel row: id and user id are UUIDs (modelled as `Nat`),
status is the string "pending" or "completed", timestamps are abstract
clock values. -/
structure Task where
  id : Nat
  user_id : Nat
  title : String
  description : Option String
  status : String
  created_at : Nat
  updated_at : Nat
deriving Repr, DecidableEq

/-- `Task.mark_completed`: set status to "completed" and refresh
`updated_at` from the clock. -/
def Task.mark_completed (t : Task) (now : Nat) : Task :=
  { t with status := "completed", updated_at := now }

/-- `Task.update_fields()` as invoked by the service (with no arguments):
only refreshes `updated_at`. -/
def Task.update_fields (t : Task) (now : Nat) : Task :=
  { t with updated_at := now }

/-! ## Request schemas (backend/app/schemas/task.py) -/

/-- `TaskCreate` after pydantic validation (title already stripped by the
field validator). -/
structure TaskCreate where
  title : String
  description : Option String
deriving Repr, DecidableEq

/-- `TaskUpdate` after pydantic validation: all fields optional. -/
structure TaskUpdate where
  title : Option String
  description : Option String
  status : Option String
deriving Repr, DecidableEq

/-! ## The task service (backend/app/services/task_service.py)

The database session is a `List Task` in insertion order; `select(...)
.first()` takes the first row satisfying the filter. -/

namespace TaskService

/-- `select(Task).where(Task.user_id == user_id)`: all rows of this owner. -/
def list_user_tasks (st : List Task) (user_id : Nat) : List Task :=
  st.filter (fun t => t.user_id == user_id)

/-- `TaskService.get_task`: first row with this id AND this owner,
`none` otherwise. -/
def get_task (st : List Task) (user_id : Nat) (task_id : Nat) : Option Task :=
  (st.filter (fun t => t.id == task_id && t.user_id == user_id)).head?

/-- Commit a mutated row: replace the row with the same primary key. -/
def commitTask (st : List Task) (t : Task) : List Task :=
  st.map (fun x => if x.id == t.id then t else x)

/-- `TaskService.create_task`: validate the stripped title is non-empty
(`ValueError` otherwise), then insert a fresh pending row. `fresh` is
the id produced by `uuid4()`, `now` the clock. -/
def create_task (st : List Task) (user_id : Nat) (data : TaskCreate)
    (now fresh : Nat) : Except String (Task × List Task) :=
  if pyStrip data.title == "" then .error "Title cannot be empty"
  else
    let t : Task :=
      { id := fresh, user_id := user_id, title := pyStrip data.title,
        description := data.description, status := "pending",
        created_at := now, updated_at := now }
    .ok (t, st ++ [t])

/-- `TaskService.mark_as_completed`: owner-scoped lookup, then
`Task.mark_completed` and commit; `none` leaves the store unchanged. -/
def mark_as_completed (st : List Task) (user_id : Nat) (task_id : Nat)
    (now : Nat) : Option Task × List Task :=
  match get_task st user_id task_id with
  | none => (none, st)
  | some task =>
      let task := task.mark_completed now
      (some task, commitTask st task)

/-- `TaskService.update_task`: owner-scoped lookup; `none` if absent
(store unchanged); `ValueError` if a provided title strips to empty;
otherwise merge the provided fields, refresh `updated_at` via
`Task.update_fields`, and commit. -/
def update_task (st : List Task) (user_id : Nat) (task_id : Nat)
    (data : TaskUpdate) (now : Nat) :
    Except String (Option Task × List Task) :=
  match get_task st user_id task_id with
  | none => .ok (none, st)
  | some task =>
      if data.title.isSome && pyStrip (data.title.getD "") == "" then
        .error "Title cannot be empty"
      else
        let task := match data.title with
          | some s => { task with title := pyStrip s }
          | none => task
        let task := match data.description with
          | some d => { task with description := some d }
          | none => task
        let task := match data.status with
          | some s => { task with status := s }
          | none => task
        let task := task.update_fields now
        .ok (some task, commitTask st task)

/-- `TaskService.delete_task`: owner-scoped lookup; `False` if absent,
otherwise remove the row (by primary key) and return `True`. -/
def delete_task (st : List Task) (user_id : Nat) (task_id : Nat) :
    Bool × List Task :=
  match get_task st user_id task_id with
  | none => (false, st)
  | some task => (true, st.filter (fun x => !(x.id == task.id)))

end TaskService

/-! ## Python exception messages

`str(e)` of the exceptions the executor can catch. Messages from outside
the repository (pydantic validation text) are abbreviated stand-ins; no
claim inspects their content. -/

/-- `str(KeyError(k))` is the `repr` of the key. -/
def keyErrMsg (k : String) : String := "'" ++ k ++ "'"

/-- The Python type name of a JSON-decoded value. -/
def pyTypeName : Json → String
  | .null => "NoneType"
  | .bool _ => "bool"
  | .num _ => "int"
  | .str _ => "str"
  | .arr _ => "list"
  | .obj _ => "dict"

/-- `str(AttributeError(...))` when attribute `a` is missing on a value
of type `ty`. -/
def attrErrMsg (ty a : String) : String :=
  "'" ++ ty ++ "' object has no attribute '" ++ a ++ "'"

/-- `str(e)` of the `ValueError` raised by `uuid.UUID` on a malformed
string. -/
def badUuidMsg : String := "badly formed hexadecimal UUID string"

/-! ## Request-schema validation (pydantic constructors) -/

/-- `TaskCreate(title=arguments["title"],
description=arguments.get("description"))`: the `KeyError` of the missing
`title` key, then pydantic validation (title must be a string, length
bounds, stripped-non-empty validator returning the stripped value;
description an optional string of at most 1000 characters). -/
def TaskCreate.validate (args : ArgMap) : Except String TaskCreate :=
  match dictGet args "title" with
  | none => .error (keyErrMsg "title")
  | some (.str s) =>
      if s.length < 1 then
        .error "String should have at least 1 character"
      else if 255 < s.length then
        .error "String should have at most 255 characters"
      else
        let v := pyStrip s
        if v == "" then .error "Title cannot be empty or whitespace only"
        else if 255 < v.length then
          .error "Title must be between 1 and 255 characters"
        else
          match dictGet args "description" with
          | none => .ok ⟨v, none⟩
          | some .null => .ok ⟨v, none⟩
          | some (.str d) =>
              if 1000 < d.length then
                .error "Description must be less than 1000 characters"
              else .ok ⟨v, some d⟩
          | some _ => .error "Input should be a valid string"
  | some _ => .error "Input should be a valid string"

/-- `TaskUpdate(title=arguments.get("title"), description=..., status=...)`:
every field optional (absent or JSON null become `None`); a provided
title must be a string satisfying the same bounds and stripping validator
as on create; status must be the literal "pending" or "completed". -/
def TaskUpdate.validate (args : ArgMap) : Except String TaskUpdate :=
  let titleE : Except String (Option String) :=
    match dictGet args "title" with
    | none => .ok none
    | some .null => .ok none
    | some (.str s) =>
        if s.length < 1 then
          .error "String should have at least 1 character"
        else if 255 < s.length then
          .error "String should have at most 255 characters"
        else
          let v := pyStrip s
          if v == "" then .error "Title cannot be empty or whitespace only"
          else if 255 < v.length then
            .error "Title must be between 1 and 255 characters"
          else .ok (some v)
    | some _ => .error "Input should be a valid string"
  match titleE with
  | .error e => .error e
  | .ok title =>
    match dictGet args "description" with
    | some (.bool _) => .error "Input should be a valid string"
    | some (.num _) => .error "Input should be a valid string"
    | some (.arr _) => .error "Input should be a valid string"
    | some (.obj _) => .error "Input should be a valid string"
    | some (.str d) =>
        if 1000 < d.length then
          .error "Description must be less than 1000 characters"
        else
          match dictGet args "status" with
          | none => .ok ⟨title, some d, none⟩
          | some .null => .ok ⟨title, some d, none⟩
          | some (.str s) =>
              if s == "pending" || s == "completed" then
                .ok ⟨title, some d, some s⟩
              else .error "Input should be 'pending' or 'completed'"
          | some _ => .error "Input should be 'pending' or 'completed'"
    | none =>
        match dictGet args "status" with
        | none => .ok ⟨title, none, none⟩
        | some .null => .ok ⟨title, none, none⟩
        | some (.str s) =>
            if s == "pending" || s == "completed" then
              .ok ⟨title, none, some s⟩
            else .error "Input should be 'pending' or 'completed'"
        | some _ => .error "Input should be 'pending' or 'completed'"
    | some .null =>
        match dictGet args "status" with
        | none => .ok ⟨title, none, none⟩
        | some .null => .ok ⟨title, none, none⟩
        | some (.str s) =>
            if s == "pending" || s == "completed" then
              .ok ⟨title, none, some s⟩
            else .error "Input should be 'pending' or 'completed'"
        | some _ => .error "Input should be 'pending' or 'completed'"

/-! ## The tool executor (ChatService._execute_tool) -/

/-- Python `a == b` where `a` is a JSON-decoded value and `b` a `str`:
true only when `a` is the same string. -/
def jsonEqStr (j : Json) (s : String) : Bool :=
  match j with
  | .str t => t == s
  | _ => false

/-- `UUID(arguments["task_id"])`: `KeyError` when absent, an
`AttributeError` inside the UUID constructor when the value is not a
string, the UUID `ValueError` when the string is malformed. -/
def parseTaskId (args : ArgMap) : Except String Nat :=
  match dictGet args "task_id" with
  | none => .error (keyErrMsg "task_id")
  | some (.str s) =>
      match pyUUIDparse s with
      | some n => .ok n
      | none => .error badUuidMsg
  | some j => .error (attrErrMsg (pyTypeName j) "replace")

/-- The serialization of a task in a `list_tasks` result. -/
def taskJsonList (t : Task) : Json :=
  .obj [("id", .str (uuidStr t.id)), ("title", .str t.title),
    ("description", match t.description with
      | some d => .str d
      | none => .null),
    ("status", .str t.status),
    ("created_at", .str (isoFmt t.created_at))]

/-- The serialization of a task in a `search_tasks` result and in the
`create_task` / `update_task` success objects. -/
def taskJsonBrief (t : Task) : Json :=
  .obj [("id", .str (uuidStr t.id)), ("title", .str t.title),
    ("description", match t.description with
      | some d => .str d
      | none => .null),
    ("status", .str t.status)]

/-- The serialization of a task in a `mark_complete` success object. -/
def taskJsonMark (t : Task) : Json :=
  .obj [("id", .str (uuidStr t.id)), ("title", .str t.title),
    ("status", .str t.status)]

/-- The match predicate of the `search_tasks` branch with the already
lowercased query `q`: `q in t.title.lower() or (t.description and q in
t.description.lower())` (an empty description is falsy in Python). -/
def taskMatchesQ (q : String) (t : Task) : Bool :=
  pyIn q (pyLower t.title) ||
    (match t.description with
     | some d => !(d == "") && pyIn q (pyLower d)
     | none => false)

/-- The body of the `try` block of `ChatService._execute_tool`: dispatch
on the tool name; any Python exception is an `Except.error` carrying
`str(e)`. `now` is the clock and `fresh` the `uuid4()` value consumed by
a task creation. Returns the JSON result and the updated store. -/
def execute_tool_inner (st : List Task) (user_id : Nat) (tool_name : String)
    (args : ArgMap) (now fresh : Nat) : Except String (Json × List Task) :=
  if tool_name == "list_tasks" then
    let sf := (dictGet args "status_filter").getD (.str "all")
    let tasks := TaskService.list_user_tasks st user_id
    let tasks := if jsonEqStr sf "all" then tasks
      else tasks.filter (fun t => jsonEqStr sf t.status)
    .ok (.obj [("tasks", .arr (tasks.map taskJsonList)),
               ("count", .num tasks.length)], st)
  else if tool_name == "create_task" then
    match TaskCreate.validate args with
    | .error e => .error e
    | .ok data =>
        match TaskService.create_task st user_id data now fresh with
        | .error e => .error e
        | .ok (task, st) =>
            .ok (.obj [("success", .bool true), ("task", taskJsonBrief task)], st)
  else if tool_name == "update_task" then
    match parseTaskId args with
    | .error e => .error e
    | .ok task_id =>
        match TaskUpdate.validate args with
        | .error e => .error e
        | .ok data =>
            match TaskService.update_task st user_id task_id data now with
            | .error e => .error e
            | .ok (none, st) =>
                .ok (.obj [("success", .bool false),
                           ("error", .str "Task not found")], st)
            | .ok (some task, st) =>
                .ok (.obj [("success", .bool true),
                           ("task", taskJsonBrief task)], st)
  else if tool_name == "delete_task" then
    match parseTaskId args with
    | .error e => .error e
    | .ok task_id =>
        let (deleted, st) := TaskService.delete_task st user_id task_id
        .ok (.obj [("success", .bool deleted),
          ("message", .str (if deleted then "Task deleted" else "Task not found"))],
          st)
  else if tool_name == "mark_complete" then
    match parseTaskId args with
    | .error e => .error e
    | .ok task_id =>
        match TaskService.mark_as_completed st user_id task_id now with
        | (none, st) =>
            .ok (.obj [("success", .bool false),
                       ("error", .str "Task not found")], st)
        | (some task, st) =>
            .ok (.obj [("success", .bool true), ("task", taskJsonMark task)], st)
  else if tool_name == "search_tasks" then
    match dictGet args "query" with
    | none => .error (keyErrMsg "query")
    | some (.str query) =>
        let q := pyLower query
        let matching := (TaskService.list_user_tasks st user_id).filter
          (taskMatchesQ q)
        .ok (.obj [("tasks", .arr (matching.map taskJsonBrief)),
                   ("count", .num matching.length)], st)
    | some j => .error (attrErrMsg (pyTypeName j) "lower")
  else
    .ok (.obj [("error", .str ("Unknown tool: " ++ tool_name))], st)

/-- `ChatService._execute_tool`: run the dispatch body and catch every
exception at the boundary, converting it to an error object. No branch
of the body mutates the store before it can raise, so the store passed
on with a caught exception is the incoming one. -/
def execute_tool (st : List Task) (user_id : Nat) (tool_name : String)
    (args : ArgMap) (now fresh : Nat) : Json × List Task :=
  match execute_tool_inner st user_id tool_name args now fresh with
  | .ok r => r
  | .error e => (.obj [("error", .str e)], st)

/-! ## The conversation orchestrator (ChatService.process_message)

The model endpoint is an oracle `provider : Nat -> Except String
AssistantMsg`, indexed by how many completion calls have been issued so
far in this request; an `error` is a raised provider exception carrying
`str(e)`. The library function `json.loads` is an oracle `jloads :
String -> Option Json` (`none` where Python raises); the orchestrator is
proved correct for every such oracle, hence for the real parser. -/

/-- One tool invocation request from the model: the opaque call id, the
function name and the raw (undecoded) argument string, which the API may
omit. -/
structure ToolCall where
  id : String
  name : String
  arguments : Option String
deriving Repr, DecidableEq

/-- One model response: optional text content and the (possibly empty)
list of requested tool calls. -/
structure AssistantMsg where
  content : Option String
  tool_calls : List ToolCall
deriving Repr, DecidableEq

/-- A transcript entry. A tool-result entry keeps the structured result
(the code serializes it with `json.dumps`; its content is never
inspected by a claim). -/
inductive Msg where
  | system (content : String) : Msg
  | user (content : String) : Msg
  | assistant (content : Option String) (tool_calls : List ToolCall) : Msg
  | tool (tool_call_id : String) (result : Json) : Msg
deriving Repr, DecidableEq

/-- A `ToolAction` record: tool name, decoded arguments, result. -/
structure ToolAction where
  tool : String
  arguments : ArgMap
  result : Json
deriving Repr, DecidableEq

/-- The per-request mutable state of the orchestrator: the task store
(database), the clock/uuid4 counter consumed by tool executions, the
number of completion calls issued, the transcript and the accumulated
`actions_taken`. -/
structure OrchState where
  store : List Task
  tick : Nat
  callIdx : Nat
  msgs : List Msg
  acts : List ToolAction
deriving Repr, DecidableEq

/-- `json.loads(tc.function.arguments) if tc.function.arguments else
empty`, with `JSONDecodeError`/`TypeError` caught, then the
`isinstance(arguments, dict)` check: a missing, empty, undecodable or
non-object argument string becomes the empty argument mapping. -/
def parse_arguments (jloads : String → Option Json) (raw : Option String) :
    ArgMap :=
  match raw with
  | none => []
  | some s =>
      if s == "" then []
      else
        match jloads s with
        | none => []
        | some (.obj m) => m
        | some _ => []

/-- Process one requested tool call: decode the arguments, execute the
tool against the store, append the `ToolAction` record and the tool
transcript entry. One clock/uuid4 tick is consumed. -/
def exec_one_call (jloads : String → Option Json) (user_id : Nat)
    (s : OrchState) (tc : ToolCall) : OrchState :=
  let args := parse_arguments jloads tc.arguments
  let (result, store) := execute_tool s.store user_id tc.name args s.tick s.tick
  { store := store, tick := s.tick + 1, callIdx := s.callIdx,
    msgs := s.msgs ++ [.tool tc.id result],
    acts := s.acts ++ [⟨tc.name, args, result⟩] }

/-- Execute the requested calls of one round in order. -/
def exec_calls (jloads : String → Option Json) (user_id : Nat)
    (s : OrchState) (tcs : List ToolCall) : OrchState :=
  tcs.foldl (exec_one_call jloads user_id) s

/-- `max_tool_rounds = 5`. -/
def max_tool_rounds : Nat := 5

/-- `max_retries = 2`. -/
def max_retries : Nat := 2

/-- The `while assistant_message.tool_calls and tool_rounds <
max_tool_rounds` loop, with `fuel` the remaining round budget: append
the assistant message, execute its calls, issue the next completion call
(whose exception propagates), repeat. Returns the final state and the
final assistant message, or the raised provider error. -/
def tool_loop (jloads : String → Option Json)
    (provider : Nat → Except String AssistantMsg) (user_id : Nat) :
    Nat → OrchState → AssistantMsg → OrchState × Except String AssistantMsg
  | 0, s, am => (s, .ok am)
  | fuel + 1, s, am =>
      if am.tool_calls.isEmpty then (s, .ok am)
      else
        let s := { s with msgs := s.msgs ++ [.assistant am.content am.tool_calls] }
        let s := exec_calls jloads user_id s am.tool_calls
        match provider s.callIdx with
        | .error e => ({ s with callIdx := s.callIdx + 1 }, .error e)
        | .ok am2 =>
            tool_loop jloads provider user_id fuel
              { s with callIdx := s.callIdx + 1 } am2

/-- Python `assistant_message.content or default`: `None` and the empty
string fall back to the default. -/
def pyOrStr (c : Option String) (dflt : String) : String :=
  match c with
  | none => dflt
  | some s => if s == "" then dflt else s

/-- The generic completion message of the final response. -/
def doneMsg : String := "Done! Your request has been processed."

/-- One iteration of the `for attempt in range(max_retries)` body: the
initial completion call, the tool loop, and the final response text.
Raised provider errors surface as `Except.error`. -/
def run_attempt (jloads : String → Option Json)
    (provider : Nat → Except String AssistantMsg) (user_id : Nat)
    (s : OrchState) : OrchState × Except String String :=
  match provider s.callIdx with
  | .error e => ({ s with callIdx := s.callIdx + 1 }, .error e)
  | .ok am =>
      match tool_loop jloads provider user_id max_tool_rounds
          { s with callIdx := s.callIdx + 1 } am with
      | (s2, .error e) => (s2, .error e)
      | (s2, .ok amF) => (s2, .ok (pyOrStr amF.content doneMsg))

/-- The `ChatResponse` schema: final text, conversation id, ordered
action records. -/
structure ChatResp where
  response : String
  conversation_id : Nat
  actions_taken : List ToolAction
deriving Repr, DecidableEq

/-- The fixed system instruction of `chat_service.py` (`SYSTEM_PROMPT`). -/
def SYSTEM_PROMPT : String :=
  "You are a task management assistant. Help users manage their todo tasks.

IMPORTANT RULES:
- Use ONLY the provided tool functions. Do NOT write function calls as text.
- NEVER create a task unless the user explicitly says \"add\", \"create\", or \"new task\".
- For creating tasks: call create_task with the title extracted from the user's message.
- For listing tasks: call list_tasks.
- For completing tasks: first call list_tasks to find the task ID, then call mark_complete with that ID.
- For uncompleting/unchecking tasks: first call list_tasks to find the task ID, then call update_task with status=\"pending\".
- For deleting tasks: first call list_tasks to find the task ID, then call delete_task with that ID.
- For updating tasks: first call list_tasks to find the task ID, then call update_task with that ID.
- Always use list_tasks instead of search_tasks when you need to find a task ID.
- After performing an action, respond with a short confirmation message.
- Format task lists clearly with status indicators.
- If no tasks exist, say so clearly.

Understanding user intent:
- \"uncheck\", \"undo\", \"mark as not done\", \"mark as pending\", \"uncomplete\" → update_task(status=\"pending\")
- \"check\", \"done\", \"complete\", \"mark as done\", \"finish\" → mark_complete
- \"add\", \"create\", \"new task\" → create_task
- \"remove\", \"delete\" → delete_task
- \"list\", \"show\", \"what are my tasks\" → list_tasks
- \"rename\", \"change title\", \"update\" → update_task

Examples:
- \"Add task: Buy milk\" → create_task(title=\"Buy milk\")
- \"List my tasks\" → list_tasks()
- \"Complete the milk task\" → list_tasks(), then mark_complete(task_id=...)
- \"Uncheck walk the dog\" → list_tasks(), then update_task(task_id=..., status=\"pending\")
- \"Delete grocery task\" → list_tasks(), then delete_task(task_id=...)
- \"Rename milk task to Buy groceries\" → list_tasks(), then update_task(task_id=..., title=\"Buy groceries\")"

/-- The initial transcript: exactly the system instruction and the
caller's message. -/
def initMsgs (message : String) : List Msg :=
  [.system SYSTEM_PROMPT, .user message]

/-- The reset transcript used for the single retry: the system
instruction and a more directive restatement of the user message. -/
def retryMsgs (message : String) : List Msg :=
  [.system SYSTEM_PROMPT,
   .user ("Please use the tool functions to help with this request: " ++ message)]

/-- The `str(e)` of the `ValueError` raised when no provider client is
configured. -/
def noClientMsg : String :=
  "No AI provider configured. Set GROQ_API_KEY or OPENAI_API_KEY."

/-- `ChatService.process_message`. `hasClient` models whether
`get_ai_client()` found a configured provider; `freshConv` is the
`uuid4()` minted when the caller supplied no conversation id. Attempt 0
runs on the initial transcript; an exception whose text contains
"tool_use_failed" triggers the single retry on the reset transcript with
cleared action records (the store keeps the effects already committed);
any other exception, and every exception of attempt 1, propagates. The
post-loop fallback response of the code is unreachable (both attempts
either return or raise) and is therefore absent from the model. -/
def process_message (jloads : String → Option Json)
    (provider : Nat → Except String AssistantMsg) (hasClient : Bool)
    (user_id : Nat) (st : List Task) (message : String)
    (conversation_id : Option Nat) (freshConv : Nat) :
    Except String ChatResp × List Task :=
  if !hasClient then (.error noClientMsg, st)
  else
    let cid := conversation_id.getD freshConv
    let s0 : OrchState := ⟨st, 0, 0, initMsgs message, []⟩
    match run_attempt jloads provider user_id s0 with
    | (s1, .ok text) => (.ok ⟨text, cid, s1.acts⟩, s1.store)
    | (s1, .error e) =>
        if pyIn "tool_use_failed" e then
          match run_attempt jloads provider user_id
              { s1 with msgs := retryMsgs message, acts := [] } with
          | (s2, .ok text) => (.ok ⟨text, cid, s2.acts⟩, s2.store)
          | (s2, .error e2) => (.error e2, s2.store)
        else (.error e, s1.store)

/-! ## The chat endpoint error envelope (backend/app/routers/chat.py) -/

/-- The code of the `except` branch of the `chat` endpoint: on any
exception from `process_message`, respond 200 with a generic apology
carrying the first 100 characters of `str(e)`, the request conversation
id (or a fresh one) and an empty action list; a normal result passes
through. -/
def chat_endpoint (pm : Except String ChatResp) (reqConv : Option Nat)
    (freshConv : Nat) : ChatResp :=
  match pm with
  | .ok r => r
  | .error e =>
      { response := "Sorry, I couldn't process that request. Please try rephrasing. (Error: "
          ++ String.mk (e.data.take 100) ++ ")",
        conversation_id := reqConv.getD freshConv,
        actions_taken := [] }

/-! ## Spec-side predicates and observers used by the claim statements -/

/-- The claim-level reading of the search contract: `s` contains `q` as a
case-insensitive substring. -/
def containsCI (q s : String) : Bool :=
  pyIn (pyLower q) (pyLower s)

/-- The claim-level match predicate of `search_tasks`: the query occurs
case-insensitively in the title or in the description. -/
def specMatches (q : String) (t : Task) : Bool :=
  containsCI q t.title ||
    (match t.description with
     | some d => containsCI q d
     | none => false)

/-- The tasks field of a JSON object result, when present as an array. -/
def tasksField (j : Json) : Option (List Json) :=
  match j with
  | .obj fs =>
      match dictGet fs "tasks" with
      | some (.arr ts) => some ts
      | _ => none
  | _ => none

/-- The count field of a JSON object result, when present as a number. -/
def countField (j : Json) : Option Nat :=
  match j with
  | .obj fs =>
      match dictGet fs "count" with
      | some (.num n) => some n
      | _ => none
  | _ => none

/-- The count/tasks invariant of a tool result: whenever the result has a
tasks array, it has a count field equal to its length. -/
def countConsistent (j : Json) : Bool :=
  match tasksField j with
  | some ts =>
      match countField j with
      | some n => n == ts.length
      | none => false
  | none => true

/-- The error field of a JSON object result (the executor signals caught
exceptions exactly through this field). -/
def errField (j : Json) : Option Json :=
  match j with
  | .obj fs => dictGet fs "error"
  | _ => none

/-- Whether a decode outcome of `json.loads` is a JSON object. -/
def decodesToObj (r : Option Json) : Bool :=
  match r with
  | some (.obj _) => true
  | _ => false

/-- The total number of tool calls the model requests in rounds
`k, k+1, ..., k+n-1` of a response sequence. -/
def toolSum (am : Nat → AssistantMsg) (k n : Nat) : Nat :=
  ((List.range n).map (fun j => (am (k + j)).tool_calls.length)).sum

/-- The final response text of a `process_message` outcome, `none` when
the call raised. -/
def finalText (r : Except String ChatResp × List Task) : Option String :=
  match r.1 with
  | .ok c => some c.response
  | .error _ => none

/-! ## Concrete oracles used by witnesses and counterexamples -/

/-- A `json.loads` oracle on which every decode fails (all the concrete
argument strings below are indeed invalid JSON). -/
def cexJloads : String → Option Json := fun _ => none

/-- A model that always requests one more tool call, with non-empty text
content alongside it. -/
def c2am : Nat → AssistantMsg :=
  fun _ => ⟨some "still working", [⟨"c1", "list_tasks", none⟩]⟩

/-- The provider endpoint for `c2am`: never raises. -/
def c2provider : Nat → Except String AssistantMsg :=
  fun n => .ok (c2am n)

/-- A provider whose first call raises a tool-use parsing failure and
which then answers plainly. -/
def c5provider : Nat → Except String AssistantMsg :=
  fun n => if n == 0 then .error "groq tool_use_failed: bad call"
    else .ok ⟨some "recovered", []⟩

/-! ## Lemmas about the owner-scoped store -/

theorem get_task_cons (x : Task) (xs : List Task) (u i : Nat) :
    TaskService.get_task (x :: xs) u i =
      if x.id == i && x.user_id == u then some x
      else TaskService.get_task xs u i := by
  cases h : (x.id == i && x.user_id == u) <;>
    simp [TaskService.get_task, List.filter_cons, h]

theorem get_task_mem {st : List Task} {u i : Nat} {t : Task}
    (h : TaskService.get_task st u i = some t) :
    t ∈ st ∧ t.id = i ∧ t.user_id = u := by
  induction st with
  | nil => simp [TaskService.get_task] at h
  | cons x xs ih =>
      rw [get_task_cons] at h
      by_cases hc : (x.id == i && x.user_id == u) = true
      · rw [if_pos hc] at h
        cases h
        simp only [Bool.and_eq_true, beq_iff_eq] at hc
        exact ⟨List.mem_cons_self _ _, hc.1, hc.2⟩
      · rw [if_neg hc] at h
        obtain ⟨hm, hrest⟩ := ih h
        exact ⟨List.mem_cons_of_mem _ hm, hrest⟩

theorem get_task_none_of_ids {st : List Task} {u i : Nat}
    (h : ∀ y ∈ st, y.id ≠ i) : TaskService.get_task st u i = none := by
  induction st with
  | nil => rfl
  | cons x xs ih =>
      rw [get_task_cons]
      have hx : (x.id == i) = false := by
        simp only [beq_eq_false_iff_ne]
        exact h x (List.mem_cons_self _ _)
      rw [hx]
      simp only [Bool.false_and, if_false]
      exact ih (fun y hy => h y (List.mem_cons_of_mem _ hy))

theorem get_task_foreign_none {st : List Task} {A B : Nat} {t : Task}
    (huniq : (st.map Task.id).Nodup) (hmem : t ∈ st)
    (hA : t.user_id = A) (hBA : B ≠ A) :
    TaskService.get_task st B t.id = none := by
  induction st with
  | nil => cases hmem
  | cons x xs ih =>
      rw [List.map_cons, List.nodup_cons] at huniq
      rw [get_task_cons]
      rcases List.mem_cons.mp hmem with hx | hxs
      · subst hx
        have hu : (t.user_id == B) = false := by
          simp only [beq_eq_false_iff_ne]
          rw [hA]; exact fun h => hBA h.symm
        rw [hu, Bool.and_false, if_neg (by simp)]
        exact get_task_none_of_ids (fun y hy hid =>
          huniq.1 (hid ▸ List.mem_map_of_mem Task.id hy))
      · have hne : (x.id == t.id) = false := by
          simp only [beq_eq_false_iff_ne]
          exact fun h => huniq.1 (h ▸ List.mem_map_of_mem Task.id hxs)
        rw [hne, Bool.false_and, if_neg (by simp)]
        exact ih huniq.2 hxs

/-- C1. Every task-store operation invoked by a non-owner on an owned
task id reports not-found (`none` for get/update/complete, `false` for
delete) and leaves the store, hence the task, untouched. The id-nodup
hypothesis is the primary-key invariant of the tasks table. -/
theorem C1_cross_owner_isolation (st : List Task) (A B : Nat) (t : Task)
    (d : TaskUpdate) (n1 n2 : Nat)
    (hmem : t ∈ st) (hA : t.user_id = A) (hBA : B ≠ A)
    (huniq : (st.map Task.id).Nodup) :
    TaskService.get_task st B t.id = none ∧
    TaskService.update_task st B t.id d n1 = .ok (none, st) ∧
    TaskService.delete_task st B t.id = (false, st) ∧
    TaskService.mark_as_completed st B t.id n2 = (none, st) := by
  have hg := get_task_foreign_none huniq hmem hA hBA
  exact ⟨hg,
    by simp [TaskService.update_task, hg],
    by simp [TaskService.delete_task, hg],
    by simp [TaskService.mark_as_completed, hg]⟩

/-- Witness for C1 at a concrete two-user store. -/
theorem C1_cross_owner_isolation_witness :
    TaskService.get_task [⟨1, 7, "t", none, "pending", 0, 0⟩] 8 1 = none ∧
    TaskService.update_task [⟨1, 7, "t", none, "pending", 0, 0⟩] 8 1
      ⟨some "x", none, none⟩ 3 = .ok (none, [⟨1, 7, "t", none, "pending", 0, 0⟩]) ∧
    TaskService.delete_task [⟨1, 7, "t", none, "pending", 0, 0⟩] 8 1 =
      (false, [⟨1, 7, "t", none, "pending", 0, 0⟩]) ∧
    TaskService.mark_as_completed [⟨1, 7, "t", none, "pending", 0, 0⟩] 8 1 4 =
      (none, [⟨1, 7, "t", none, "pending", 0, 0⟩]) :=
  C1_cross_owner_isolation [⟨1, 7, "t", none, "pending", 0, 0⟩] 7 8
    ⟨1, 7, "t", none, "pending", 0, 0⟩ ⟨some "x", none, none⟩ 3 4
    (by decide) rfl (by decide) (by decide)

theorem get_task_commit {st : List Task} {u i : Nat} {t v : Task}
    (h : TaskService.get_task st u i = some t)
    (hid : v.id = t.id) (huid : v.user_id = t.user_id) :
    TaskService.get_task (TaskService.commitTask st v) u i = some v := by
  obtain ⟨-, hti, htu⟩ := get_task_mem h
  have hvi : (v.id == i) = true := by simp [hid, hti]
  have hvu : (v.user_id == u) = true := by simp [huid, htu]
  induction st with
  | nil => simp [TaskService.get_task] at h
  | cons x xs ih =>
      rw [get_task_cons] at h
      rw [show TaskService.commitTask (x :: xs) v =
        (if x.id == v.id then v else x) :: TaskService.commitTask xs v from rfl]
      by_cases hxv : (x.id == v.id) = true
      · rw [if_pos hxv, get_task_cons, hvi, hvu]
        rfl
      · rw [if_neg hxv, get_task_cons]
        by_cases hc : (x.id == i && x.user_id == u) = true
        · rw [if_pos hc] at h
          injection h with hx
          exact absurd (by simp [hx, hid.symm]) hxv
        · rw [if_neg hc] at h
          rw [if_neg hc]
          exact ih h

/-- C7. Completing a task is idempotent: on an owned task both calls
succeed and both yield status "completed" (the model raises nothing, so
success of the second call is the no-error property); on an id that
parses but is missing or foreign, the executor returns a success=false
error object instead of failing hard. -/
theorem C7_complete_idempotent (st : List Task) (u i n1 n2 nf : Nat)
    (t : Task) (s : String) (j : Nat)
    (h : TaskService.get_task st u i = some t)
    (hs : pyUUIDparse s = some j)
    (hmiss : TaskService.get_task st u j = none) :
    (∃ t1 st1, TaskService.mark_as_completed st u i n1 = (some t1, st1) ∧
       t1.status = "completed" ∧
       ∃ t2 st2, TaskService.mark_as_completed st1 u i n2 = (some t2, st2) ∧
         t2.status = "completed") ∧
    execute_tool st u "mark_complete" [("task_id", .str s)] n1 nf =
      (.obj [("success", .bool false), ("error", .str "Task not found")], st) := by
  constructor
  · refine ⟨t.mark_completed n1, TaskService.commitTask st (t.mark_completed n1),
      ?_, rfl, ?_⟩
    · simp [TaskService.mark_as_completed, h]
    · have h2 : TaskService.get_task
          (TaskService.commitTask st (t.mark_completed n1)) u i
          = some (t.mark_completed n1) := get_task_commit h rfl rfl
      exact ⟨(t.mark_completed n1).mark_completed n2,
        TaskService.commitTask (TaskService.commitTask st (t.mark_completed n1))
          ((t.mark_completed n1).mark_completed n2),
        by simp [TaskService.mark_as_completed, h2], rfl⟩
  · simp [execute_tool, execute_tool_inner, parseTaskId, dictGet, hs,
      TaskService.mark_as_completed, hmiss]

/-- Witness for C7 on a one-task store and a well-formed missing id. -/
theorem C7_complete_idempotent_witness :
    (∃ t1 st1, TaskService.mark_as_completed
        [⟨1, 7, "t", none, "pending", 0, 0⟩] 7 1 3 = (some t1, st1) ∧
       t1.status = "completed" ∧
       ∃ t2 st2, TaskService.mark_as_completed st1 7 1 5 = (some t2, st2) ∧
         t2.status = "completed") ∧
    execute_tool [⟨1, 7, "t", none, "pending", 0, 0⟩] 7 "mark_complete"
        [("task_id", .str "00000000-0000-0000-0000-000000000002")] 3 9 =
      (.obj [("success", .bool false), ("error", .str "Task not found")],
        [⟨1, 7, "t", none, "pending", 0, 0⟩]) :=
  C7_complete_idempotent [⟨1, 7, "t", none, "pending", 0, 0⟩] 7 1 3 5 9
    ⟨1, 7, "t", none, "pending", 0, 0⟩ "00000000-0000-0000-0000-000000000002" 2
    (by decide) (by decide) (by decide)

/-- C8. Update is a frame operation: every omitted field survives any
successful update on an existing owned task (in particular the all-empty
update changes nothing but the timestamp), and the update timestamp is
set to the clock whenever the entity update routine runs. -/
theorem C8_update_frame (st : List Task) (u i now : Nat) (t tOut : Task)
    (stOut : List Task) (d : TaskUpdate)
    (h : TaskService.get_task st u i = some t)
    (hrun : TaskService.update_task st u i d now = .ok (some tOut, stOut)) :
    TaskService.update_task st u i ⟨none, none, none⟩ now =
      .ok (some (t.update_fields now),
        TaskService.commitTask st (t.update_fields now)) ∧
    (d.title = none → tOut.title = t.title) ∧
    (d.description = none → tOut.description = t.description) ∧
    (d.status = none → tOut.status = t.status) ∧
    tOut.updated_at = now := by
  constructor
  · simp [TaskService.update_task, h]
  · obtain ⟨dt, dd, ds⟩ := d
    simp only [TaskService.update_task, h] at hrun
    by_cases hv : (dt.isSome && pyStrip (dt.getD "") == "") = true
    · rw [if_pos hv] at hrun
      exact absurd hrun (by simp)
    · rw [if_neg hv] at hrun
      simp only [Except.ok.injEq, Prod.mk.injEq, Option.some.injEq] at hrun
      obtain ⟨htOut, -⟩ := hrun
      subst htOut
      refine ⟨?_, ?_, ?_, ?_⟩
      · intro hdt; subst hdt
        cases dd <;> cases ds <;> simp [Task.update_fields]
      · intro hdd; subst hdd
        cases dt <;> cases ds <;> simp [Task.update_fields]
      · intro hds; subst hds
        cases dt <;> cases dd <;> simp [Task.update_fields]
      · cases dt <;> cases dd <;> cases ds <;> simp [Task.update_fields]

/-- Witness for C8: a description-only update on a one-task store. -/
theorem C8_update_frame_witness :
    TaskService.update_task [⟨1, 7, "t", none, "pending", 0, 0⟩] 7 1
        ⟨none, none, none⟩ 9 =
      .ok (some (Task.update_fields ⟨1, 7, "t", none, "pending", 0, 0⟩ 9),
        TaskService.commitTask [⟨1, 7, "t", none, "pending", 0, 0⟩]
          (Task.update_fields ⟨1, 7, "t", none, "pending", 0, 0⟩ 9)) ∧
    ((⟨none, some "newdesc", none⟩ : TaskUpdate).title = none →
      (⟨1, 7, "t", some "newdesc", "pending", 0, 9⟩ : Task).title = "t") ∧
    ((⟨none, some "newdesc", none⟩ : TaskUpdate).description = none →
      (⟨1, 7, "t", some "newdesc", "pending", 0, 9⟩ : Task).description = none) ∧
    ((⟨none, some "newdesc", none⟩ : TaskUpdate).status = none →
      (⟨1, 7, "t", some "newdesc", "pending", 0, 9⟩ : Task).status = "pending") ∧
    (⟨1, 7, "t", some "newdesc", "pending", 0, 9⟩ : Task).updated_at = 9 :=
  C8_update_frame [⟨1, 7, "t", none, "pending", 0, 0⟩] 7 1 9
    ⟨1, 7, "t", none, "pending", 0, 0⟩ ⟨1, 7, "t", some "newdesc", "pending", 0, 9⟩
    [⟨1, 7, "t", some "newdesc", "pending", 0, 9⟩] ⟨none, some "newdesc", none⟩
    (by decide) rfl

/-- C3. The executor boundary converts every exception raised inside the
dispatch body into the structured result `error: str(e)` and leaves the
store untouched; since `execute_tool` is a total function into plain
results, nothing propagates past the boundary. -/
theorem C3_executor_never_raises (st : List Task) (u : Nat) (tname : String)
    (args : ArgMap) (now fresh : Nat) (e : String)
    (h : execute_tool_inner st u tname args now fresh = .error e) :
    execute_tool st u tname args now fresh = (.obj [("error", .str e)], st) := by
  simp [execute_tool, h]

/-- Witness for C3: a malformed task id raises inside the body and comes
out as an error object. -/
theorem C3_executor_never_raises_witness :
    execute_tool [] 0 "mark_complete" [("task_id", .str "zz")] 0 0 =
      (.obj [("error", .str badUuidMsg)], []) :=
  C3_executor_never_raises [] 0 "mark_complete" [("task_id", .str "zz")] 0 0
    badUuidMsg rfl

/-! ## Lemmas for the search predicate -/

theorem listSub_nil : ∀ l, listSub [] l = true
  | [] => rfl
  | _ :: _ => by simp [listSub, headMatches]

theorem listSub_nil_right (n : List Char) : listSub n [] = n.isEmpty := by
  cases n <;> rfl

theorem pyLower_data (s : String) : (pyLower s).data = s.data.map Char.toLower :=
  rfl

/-- The executor search predicate on the lowercased query coincides with
the spec-level case-insensitive predicate: the truthiness guard on an
empty description only fires when the query is empty, in which case the
title arm already matches. -/
theorem taskMatches_eq_spec (q : String) (t : Task) :
    taskMatchesQ (pyLower q) t = specMatches q t := by
  unfold taskMatchesQ specMatches containsCI
  cases hd : t.description with
  | none => simp
  | some d =>
      by_cases hde : d = ""
      · subst hde
        by_cases hq : q.data = []
        · have h1 : (pyLower q).data = [] := by
            rw [pyLower_data, hq]; rfl
          have h2 : pyIn (pyLower q) (pyLower t.title) = true := by
            unfold pyIn; rw [h1]; exact listSub_nil _
          simp [h2]
        · have h1 : ¬ (pyLower q).data = [] := by
            rw [pyLower_data]
            simp only [List.map_eq_nil_iff]
            exact hq
          have h2 : pyIn (pyLower q) (pyLower "") = false := by
            unfold pyIn
            rw [show (pyLower "").data = [] from rfl, listSub_nil_right]
            cases hql : (pyLower q).data with
            | nil => exact absurd hql h1
            | cons c cs => rfl
          simp [h2]
      · have hdb : (d == "") = false := by simp [hde]
        simp [hdb]

/-- C9. The search tool returns exactly the owned tasks whose title or
description contains the query case-insensitively, together with their
count; in particular no match yields the empty sequence and count 0. -/
theorem C9_search_exact (st : List Task) (u now fresh : Nat) (args : ArgMap)
    (q : String) (h : dictGet args "query" = some (.str q)) :
    execute_tool st u "search_tasks" args now fresh =
      (.obj [("tasks", .arr (((TaskService.list_user_tasks st u).filter
          (specMatches q)).map taskJsonBrief)),
        ("count", .num ((TaskService.list_user_tasks st u).filter
          (specMatches q)).length)], st) ∧
    ((TaskService.list_user_tasks st u).filter (specMatches q) = [] →
      execute_tool st u "search_tasks" args now fresh =
        (.obj [("tasks", .arr []), ("count", .num 0)], st)) := by
  have hfilter : (TaskService.list_user_tasks st u).filter (taskMatchesQ (pyLower q))
      = (TaskService.list_user_tasks st u).filter (specMatches q) :=
    List.filter_congr (fun t _ => taskMatches_eq_spec q t)
  constructor
  · simp [execute_tool, execute_tool_inner, h, hfilter]
  · intro hnil
    simp [execute_tool, execute_tool_inner, h, hfilter, hnil]

/-- Witness for C9: one matching and one non-matching task. -/
theorem C9_search_exact_witness :
    execute_tool [⟨1, 7, "Buy MILK", none, "pending", 0, 0⟩,
        ⟨2, 7, "Walk dog", some "park", "pending", 0, 0⟩] 7 "search_tasks"
        [("query", .str "milk")] 0 0 =
      (.obj [("tasks", .arr (((TaskService.list_user_tasks
          [⟨1, 7, "Buy MILK", none, "pending", 0, 0⟩,
           ⟨2, 7, "Walk dog", some "park", "pending", 0, 0⟩] 7).filter
          (specMatches "milk")).map taskJsonBrief)),
        ("count", .num ((TaskService.list_user_tasks
          [⟨1, 7, "Buy MILK", none, "pending", 0, 0⟩,
           ⟨2, 7, "Walk dog", some "park", "pending", 0, 0⟩] 7).filter
          (specMatches "milk")).length)],
        [⟨1, 7, "Buy MILK", none, "pending", 0, 0⟩,
         ⟨2, 7, "Walk dog", some "park", "pending", 0, 0⟩]) ∧
    ((TaskService.list_user_tasks
        [⟨1, 7, "Buy MILK", none, "pending", 0, 0⟩,
         ⟨2, 7, "Walk dog", some "park", "pending", 0, 0⟩] 7).filter
        (specMatches "milk") = [] →
      execute_tool [⟨1, 7, "Buy MILK", none, "pending", 0, 0⟩,
          ⟨2, 7, "Walk dog", some "park", "pending", 0, 0⟩] 7 "search_tasks"
          [("query", .str "milk")] 0 0 =
        (.obj [("tasks", .arr []), ("count", .num 0)],
          [⟨1, 7, "Buy MILK", none, "pending", 0, 0⟩,
           ⟨2, 7, "Walk dog", some "park", "pending", 0, 0⟩])) :=
  C9_search_exact [⟨1, 7, "Buy MILK", none, "pending", 0, 0⟩,
    ⟨2, 7, "Walk dog", some "park", "pending", 0, 0⟩] 7 0 0
    [("query", .str "milk")] "milk" rfl

/-- The count/tasks invariant holds for every list-shaped result. -/
theorem countConsistent_listResult (l : List Task) (f : Task → Json) :
    countConsistent (.obj [("tasks", .arr (l.map f)),
      ("count", .num l.length)]) = true := by
  simp [countConsistent, tasksField, countField, dictGet]

/-- C10. For every argument mapping and store, the list and search tools
return results whose count field equals the length of their tasks array
(error results have no tasks array and satisfy the invariant trivially). -/
theorem C10_count_matches_tasks (st : List Task) (u now fresh : Nat)
    (args : ArgMap) :
    countConsistent (execute_tool st u "list_tasks" args now fresh).1 = true ∧
    countConsistent (execute_tool st u "search_tasks" args now fresh).1 = true := by
  constructor
  · cases hsf : jsonEqStr ((dictGet args "status_filter").getD (.str "all")) "all" <;>
      simp [execute_tool, execute_tool_inner, hsf, countConsistent,
        tasksField, countField, dictGet]
  · have hqd : ∀ r, dictGet args "query" = r →
        Option.map Prod.snd (List.find? (fun p => p.1 == "query") args) = r :=
      fun _ h => h
    cases hq : dictGet args "query" with
    | none =>
        simp [execute_tool, execute_tool_inner, hqd _ hq, countConsistent,
          tasksField, countField, dictGet, keyErrMsg]
    | some j =>
        cases j <;>
          simp [execute_tool, execute_tool_inner, hqd _ hq, countConsistent,
            tasksField, countField, dictGet]

/-- C4 counterexample. The error envelope of the chat endpoint embeds the
first 100 characters of the internal exception text into the response, so
the caller does receive provider-internal error text verbatim. -/
theorem C4_counterexample :
    (chat_endpoint (.error "boom from provider xyz") none 0).response =
      "Sorry, I couldn't process that request. Please try rephrasing. (Error: boom from provider xyz)" ∧
    pyIn "boom from provider xyz"
      (chat_endpoint (.error "boom from provider xyz") none 0).response = true := by
  exact ⟨rfl, by decide⟩

/-- C4 amended. On any failure the caller receives the generic apology
with at most the first 100 characters of the internal error text
appended, and an empty action list; the response is never longer than
172 characters, so no full stack trace fits through. -/
theorem C4_degraded_response (e : String) (conv : Option Nat) (fc : Nat) :
    chat_endpoint (.error e) conv fc =
      ⟨"Sorry, I couldn't process that request. Please try rephrasing. (Error: "
        ++ String.mk (e.data.take 100) ++ ")", conv.getD fc, []⟩ ∧
    (chat_endpoint (.error e) conv fc).actions_taken = [] ∧
    (chat_endpoint (.error e) conv fc).response.length ≤ 172 := by
  refine ⟨rfl, rfl, ?_⟩
  have h1 : (chat_endpoint (.error e) conv fc).response
      = "Sorry, I couldn't process that request. Please try rephrasing. (Error: "
        ++ String.mk (e.data.take 100) ++ ")" := rfl
  rw [h1, String.length_append, String.length_append]
  have h2 : (String.mk (e.data.take 100)).length = (e.data.take 100).length := rfl
  have h3 : (e.data.take 100).length ≤ 100 := by simp [List.length_take]
  have h4 : ("Sorry, I couldn't process that request. Please try rephrasing. (Error: " : String).length = 71 := rfl
  have h5 : (")" : String).length = 1 := rfl
  omega

/-- C5. When the first attempt raises, the orchestrator inspects the
message: a recognized tool-use parsing failure triggers exactly one
further attempt, started from the reset transcript (system plus the
restated user instruction) with the accumulated tool-call records
cleared, whose own failure propagates; any other exception propagates
immediately. -/
theorem C5_retry_once (jloads : String → Option Json)
    (provider : Nat → Except String AssistantMsg) (u : Nat) (st : List Task)
    (message : String) (conv : Option Nat) (fc : Nat) (s1 : OrchState)
    (e1 : String)
    (h1 : run_attempt jloads provider u ⟨st, 0, 0, initMsgs message, []⟩
      = (s1, .error e1)) :
    process_message jloads provider true u st message conv fc =
      if pyIn "tool_use_failed" e1 then
        match run_attempt jloads provider u
            { s1 with msgs := retryMsgs message, acts := [] } with
        | (s2, .ok text) => (.ok ⟨text, conv.getD fc, s2.acts⟩, s2.store)
        | (s2, .error e2) => (.error e2, s2.store)
      else (.error e1, s1.store) := by
  simp [process_message, h1]

/-- Witness for C5: the first provider call raises a tool-use failure,
the retry answers plainly. -/
theorem C5_retry_once_witness :
    process_message cexJloads c5provider true 0 [] "hi" none 42 =
      if pyIn "tool_use_failed" "groq tool_use_failed: bad call" then
        match run_attempt cexJloads c5provider 0
            { (⟨[], 0, 1, initMsgs "hi", []⟩ : OrchState) with
              msgs := retryMsgs "hi", acts := [] } with
        | (s2, .ok text) => (.ok ⟨text, 42, s2.acts⟩, s2.store)
        | (s2, .error e2) => (.error e2, s2.store)
      else (.error "groq tool_use_failed: bad call",
        (⟨[], 0, 1, initMsgs "hi", []⟩ : OrchState).store) :=
  C5_retry_once cexJloads c5provider 0 [] "hi" none 42
    ⟨[], 0, 1, initMsgs "hi", []⟩ "groq tool_use_failed: bad call" rfl

/-- C6 counterexample. A malformed argument string on `list_tasks` does
not abort the round and is executed with the empty mapping, but the
recorded result is the normal listing object, not a structured error
result: it has no error field at all. -/
theorem C6_counterexample :
    (exec_one_call cexJloads 0 ⟨[], 0, 0, [], []⟩
        ⟨"id1", "list_tasks", some "###"⟩).acts =
      [⟨"list_tasks", [], .obj [("tasks", .arr []), ("count", .num 0)]⟩] ∧
    errField (.obj [("tasks", .arr []), ("count", .num 0)]) = none := by
  exact ⟨rfl, rfl⟩

/-- C6 amended. A tool-call argument string that is not valid JSON or is
not a JSON object never aborts the round: the call proceeds with the
empty argument mapping, its record and transcript entry are appended,
and the model receives the executor's normal structured result — which
is an error object exactly when the tool has required arguments (all
tools except `list_tasks`). -/
theorem C6_malformed_args (jl : String → Option Json) (u : Nat)
    (s : OrchState) (tc : ToolCall) (raw : String)
    (hraw : tc.arguments = some raw) (hne : (raw == "") = false)
    (hbad : decodesToObj (jl raw) = false) :
    exec_one_call jl u s tc =
      { store := (execute_tool s.store u tc.name [] s.tick s.tick).2,
        tick := s.tick + 1, callIdx := s.callIdx,
        msgs := s.msgs ++ [.tool tc.id (execute_tool s.store u tc.name [] s.tick s.tick).1],
        acts := s.acts ++ [⟨tc.name, [], (execute_tool s.store u tc.name [] s.tick s.tick).1⟩] } ∧
    (tc.name = "create_task" ∨ tc.name = "update_task" ∨ tc.name = "delete_task"
        ∨ tc.name = "mark_complete" ∨ tc.name = "search_tasks" →
      ∃ m, (execute_tool s.store u tc.name [] s.tick s.tick).1
        = .obj [("error", .str m)]) := by
  have hargs : parse_arguments jl tc.arguments = [] := by
    rw [hraw]
    simp only [parse_arguments, hne, Bool.false_eq_true, if_false]
    cases hj : jl raw with
    | none => rfl
    | some j =>
        cases j with
        | obj m => rw [hj] at hbad; simp [decodesToObj] at hbad
        | null => rfl
        | bool b => rfl
        | num n => rfl
        | str s2 => rfl
        | arr l => rfl
  constructor
  · unfold exec_one_call
    rw [hargs]
  · intro hnames
    rcases hnames with h | h | h | h | h <;> rw [h]
    · exact ⟨keyErrMsg "title", rfl⟩
    · exact ⟨keyErrMsg "task_id", rfl⟩
    · exact ⟨keyErrMsg "task_id", rfl⟩
    · exact ⟨keyErrMsg "task_id", rfl⟩
    · exact ⟨keyErrMsg "query", rfl⟩

/-- Witness for C6: a non-JSON argument string on `delete_task`. -/
theorem C6_malformed_args_witness :
    exec_one_call cexJloads 0 ⟨[], 0, 0, [], []⟩
        ⟨"id9", "delete_task", some "not-json"⟩ =
      { store := (execute_tool [] 0 "delete_task" [] 0 0).2,
        tick := 1, callIdx := 0,
        msgs := [.tool "id9" (execute_tool [] 0 "delete_task" [] 0 0).1],
        acts := [⟨"delete_task", [], (execute_tool [] 0 "delete_task" [] 0 0).1⟩] } ∧
    ("delete_task" = "create_task" ∨ "delete_task" = "update_task"
        ∨ "delete_task" = "delete_task" ∨ "delete_task" = "mark_complete"
        ∨ "delete_task" = "search_tasks" →
      ∃ m, (execute_tool [] 0 "delete_task" [] 0 0).1
        = .obj [("error", .str m)]) :=
  C6_malformed_args cexJloads 0 ⟨[], 0, 0, [], []⟩
    ⟨"id9", "delete_task", some "not-json"⟩ "not-json" rfl rfl rfl

/-! ## Lemmas about the bounded tool loop -/

theorem exec_calls_stats (jl : String → Option Json) (u : Nat) :
    ∀ (tcs : List ToolCall) (s : OrchState),
      (exec_calls jl u s tcs).acts.length = s.acts.length + tcs.length ∧
      (exec_calls jl u s tcs).callIdx = s.callIdx := by
  intro tcs
  induction tcs with
  | nil => intro s; exact ⟨by simp [exec_calls], rfl⟩
  | cons tc tcs ih =>
      intro s
      have hstep : exec_calls jl u s (tc :: tcs)
          = exec_calls jl u (exec_one_call jl u s tc) tcs := rfl
      rw [hstep]
      obtain ⟨hlen, hci⟩ := ih (exec_one_call jl u s tc)
      have hone : (exec_one_call jl u s tc).acts.length = s.acts.length + 1 := by
        simp [exec_one_call]
      constructor
      · rw [hlen, hone, List.length_cons]
        omega
      · rw [hci]; rfl

theorem toolSum_zero (am : Nat → AssistantMsg) (k : Nat) : toolSum am k 0 = 0 :=
  rfl

theorem toolSum_succ (am : Nat → AssistantMsg) (k n : Nat) :
    toolSum am k (n + 1) = (am k).tool_calls.length + toolSum am (k + 1) n := by
  unfold toolSum
  rw [List.range_succ_eq_map, List.map_cons, List.sum_cons, List.map_map]
  congr 1
  apply congrArg List.sum
  apply List.map_congr_left
  intro x _
  simp only [Function.comp]
  have hx : k + Nat.succ x = k + 1 + x := by omega
  rw [hx]

theorem tool_loop_step (jl : String → Option Json)
    (provider : Nat → Except String AssistantMsg) (u fuel : Nat)
    (s : OrchState) (am2 : AssistantMsg)
    (hne : am2.tool_calls.isEmpty = false) :
    tool_loop jl provider u (fuel + 1) s am2 =
      (let s1 := exec_calls jl u
        { s with msgs := s.msgs ++ [.assistant am2.content am2.tool_calls] }
        am2.tool_calls
       match provider s1.callIdx with
       | .error e => ({ s1 with callIdx := s1.callIdx + 1 }, .error e)
       | .ok am3 =>
           tool_loop jl provider u fuel { s1 with callIdx := s1.callIdx + 1 } am3) := by
  rw [tool_loop, hne, if_neg Bool.false_ne_true]

/-- Running the loop against a model that requests tools on every round
consumes the whole round budget: starting at round message `am k`, the
loop executes exactly `fuel` rounds, ends on message `am (k + fuel)`,
and accumulates one record per requested call. -/
theorem tool_loop_all (jl : String → Option Json)
    (provider : Nat → Except String AssistantMsg) (u : Nat)
    (am : Nat → AssistantMsg)
    (hp : ∀ n, provider n = .ok (am n)) (hne : ∀ n, (am n).tool_calls ≠ []) :
    ∀ (fuel k : Nat) (s : OrchState), s.callIdx = k + 1 →
      ∃ s2, tool_loop jl provider u fuel s (am k) = (s2, .ok (am (k + fuel))) ∧
        s2.acts.length = s.acts.length + toolSum am k fuel := by
  intro fuel
  induction fuel with
  | zero =>
      intro k s _
      exact ⟨s, by simp [tool_loop], by simp [toolSum]⟩
  | succ fuel ih =>
      intro k s hci
      have hemp : (am k).tool_calls.isEmpty = false := by
        cases hl : (am k).tool_calls with
        | nil => exact absurd hl (hne k)
        | cons a l => rfl
      rw [tool_loop_step jl provider u fuel s (am k) hemp]
      obtain ⟨hlen1, hci1⟩ := exec_calls_stats jl u (am k).tool_calls
        { s with msgs := s.msgs ++ [.assistant (am k).content (am k).tool_calls] }
      have hprov : provider (exec_calls jl u
          { s with msgs := s.msgs ++ [.assistant (am k).content (am k).tool_calls] }
          (am k).tool_calls).callIdx = .ok (am (k + 1)) := by
        rw [hci1]
        show provider s.callIdx = _
        rw [hci, hp]
      simp only [hprov]
      obtain ⟨s2, hrec, hlen2⟩ := ih (k + 1)
        { exec_calls jl u
            { s with msgs := s.msgs ++ [.assistant (am k).content (am k).tool_calls] }
            (am k).tool_calls with
          callIdx := (exec_calls jl u
            { s with msgs := s.msgs ++ [.assistant (am k).content (am k).tool_calls] }
            (am k).tool_calls).callIdx + 1 }
        (by simp only [hci1]; show s.callIdx + 1 = k + 1 + 1; rw [hci])
      refine ⟨s2, ?_, ?_⟩
      · rw [hrec]
        have : k + 1 + fuel = k + (fuel + 1) := by omega
        rw [this]
      · rw [hlen2]
        have hacts : ({ exec_calls jl u
            { s with msgs := s.msgs ++ [.assistant (am k).content (am k).tool_calls] }
            (am k).tool_calls with
          callIdx := (exec_calls jl u
            { s with msgs := s.msgs ++ [.assistant (am k).content (am k).tool_calls] }
            (am k).tool_calls).callIdx + 1 } : OrchState).acts.length
            = s.acts.length + (am k).tool_calls.length := hlen1
        rw [hacts, toolSum_succ]
        omega

theorem pyOrStr_ne_empty (c : Option String) : pyOrStr c doneMsg ≠ "" := by
  cases c with
  | none => simp [pyOrStr, doneMsg]
  | some s =>
      by_cases hs : (s == "") = true
      · simp [pyOrStr, hs, doneMsg]
      · simp only [pyOrStr]
        rw [if_neg hs]
        intro h
        exact hs (by rw [h]; rfl)

/-- C2 amended core. Against a model that requests tool calls on every
response, the orchestrator executes exactly the configured five
tool-execution rounds, then stops issuing tool calls: the final response
is built from the sixth model message (falling back to the generic
processed message when its text is empty or absent), is non-empty, and
carries one record for every call requested in the five executed rounds. -/
theorem C2_bounded_rounds (jl : String → Option Json)
    (provider : Nat → Except String AssistantMsg) (am : Nat → AssistantMsg)
    (u : Nat) (st : List Task) (message : String) (conv : Option Nat) (fc : Nat)
    (hp : ∀ n, provider n = .ok (am n)) (hne : ∀ n, (am n).tool_calls ≠ []) :
    ∃ resp st2, process_message jl provider true u st message conv fc
        = (.ok resp, st2) ∧
      resp.response = pyOrStr (am max_tool_rounds).content doneMsg ∧
      resp.response ≠ "" ∧
      resp.actions_taken.length = toolSum am 0 max_tool_rounds := by
  obtain ⟨s2, hloop, hlen⟩ := tool_loop_all jl provider u am hp hne
    max_tool_rounds 0 ⟨st, 0, 0 + 1, initMsgs message, []⟩ rfl
  have hra : run_attempt jl provider u ⟨st, 0, 0, initMsgs message, []⟩
      = (s2, .ok (pyOrStr (am (0 + max_tool_rounds)).content doneMsg)) := by
    unfold run_attempt
    rw [show (⟨st, 0, 0, initMsgs message, []⟩ : OrchState).callIdx = 0 from rfl,
      hp 0]
    simp only [hloop]
  refine ⟨⟨pyOrStr (am (0 + max_tool_rounds)).content doneMsg, conv.getD fc,
    s2.acts⟩, s2.store, ?_, ?_, ?_, ?_⟩
  · simp [process_message, hra]
  · rw [Nat.zero_add]
  · exact pyOrStr_ne_empty _
  · simpa using hlen

/-- Witness for C2 with a provider that always requests one list call. -/
theorem C2_bounded_rounds_witness :
    ∃ resp st2, process_message cexJloads c2provider true 0 [] "hi" none 0
        = (.ok resp, st2) ∧
      resp.response = pyOrStr (c2am max_tool_rounds).content doneMsg ∧
      resp.response ≠ "" ∧
      resp.actions_taken.length = toolSum c2am 0 max_tool_rounds :=
  C2_bounded_rounds cexJloads c2provider c2am 0 [] "hi" none 0
    (fun _ => rfl) (fun _ => by simp [c2am])

/-- C2 counterexample. With the same endlessly tool-requesting model the
loop does terminate, but the final response is the text the model sent
alongside its last tool request, not the generic processed message the
claim promises. -/
theorem C2_counterexample :
    finalText (process_message cexJloads c2provider true 0 [] "hi" none 0)
      = some "still working" ∧
    ("still working" = doneMsg → False) := by
  exact ⟨rfl, by decide⟩

end TodoApp
